import Mathlib

/-!
Verification of the Weather_Data_Analyzer pipeline
(`weather_api_service.py`, `weather_data_service.py`,
`weather_numpy_analyzer.py`).

Shallow embedding conventions:
* Python floats are embedded as exact rationals (`ℚ`); `np.std`, which is
  the square root of `np.var`, is represented through its square, and
  statements about it quantify over any real `s ≥ 0` with `s ^ 2 = variance`.
* Python `None` is `Option.none`; a function that can raise returns `Except`.
* Effects that settle the claims (whether an HTTP request was issued, which
  log messages were emitted) are returned explicitly in the result record.
* The HTTP layer (`requests.get`) is modelled by a `FetchOutcome` parameter:
  one constructor per way the `try` block in `get_city_weather` can end,
  matching the `except` clauses of the source.
-/

set_option autoImplicit false

namespace Weather

/-- The flat payload returned by `get_city_weather` /
`handle_weather_api_response` in `weather_api_service.py`:
keys `temperature`, `temperature_f`, `humidity`, `condition`. -/
structure WeatherPayload where
  temperature : Option ℚ
  temperature_f : Option ℚ
  humidity : Option ℚ
  condition : String
  deriving Repr, DecidableEq

/-- The sentinel returned on an empty city and on every non-timeout failure:
`{"temperature": None, "temperature_f": None, "humidity": None, "condition": "Unknown"}`. -/
def unknownPayload : WeatherPayload :=
  { temperature := none, temperature_f := none, humidity := none, condition := "Unknown" }

/-- The sentinel returned on `Timeout`:
`{"temperature": None, "temperature_f": None, "humidity": None, "condition": "Unavailable"}`. -/
def unavailablePayload : WeatherPayload :=
  { temperature := none, temperature_f := none, humidity := none, condition := "Unavailable" }

/-- The `current` object of a parsed JSON body, as read by
`handle_weather_api_response`: each nested field may be missing. -/
structure CurrentData where
  temp_c : Option ℚ
  temp_f : Option ℚ
  humidity : Option ℚ
  condition_text : Option String
  deriving Repr, DecidableEq

/-- A parsed JSON body `weather_data`; `current` may be missing
(`weather_data.get('current', {})`). -/
structure ApiResponse where
  current : Option CurrentData
  deriving Repr, DecidableEq

/-- Embedding of `handle_weather_api_response(weather_data)` from `weather_api_service.py`:
missing nested fields map to `None` / `"Unknown"`. -/
def handle_weather_api_response (weather_data : ApiResponse) : WeatherPayload :=
  let current : CurrentData :=
    (weather_data.current).getD
      { temp_c := none, temp_f := none, humidity := none, condition_text := none }
  { temperature := current.temp_c
    temperature_f := current.temp_f
    humidity := current.humidity
    condition := current.condition_text.getD "Unknown" }

/-- Python truthiness of the `WEATHER_API_KEY` value returned by `os.getenv`:
`if not api_key` is taken when the variable is unset (`none`) or empty. -/
def apiKeyPresent : Option String → Bool
  | none => false
  | some k => k ≠ ""

/-- Embedding of `get_weather_api_url(city)` from `weather_api_service.py`.
`apiKey` and `baseUrl` are the values of `os.getenv("WEATHER_API_KEY")` and
`os.getenv("WEATHER_API_BASE_URL")`.  Raises `ValueError` (modelled as
`.error`) when the key is unset or empty; otherwise builds the query URL. -/
def get_weather_api_url (apiKey baseUrl : Option String) (city : String) :
    Except String String :=
  let base_url := baseUrl.getD "http://api.weatherapi.com/v1"
  if apiKeyPresent apiKey then
    .ok (base_url ++ "/current.json?key=" ++ apiKey.getD "" ++ "&q=" ++ city ++ "&aqi=no")
  else
    .error "WEATHER_API_KEY environment variable is not set or empty"

/-- How the `try` block of `get_city_weather` ends, one constructor per
`except` clause of the source (`Timeout`, `HTTPError`, `RequestException`,
`ValueError` from `.json()`, bare `Exception`) plus the success path. -/
inductive FetchOutcome where
  | success (resp : ApiResponse)
  | timeout
  | httpError
  | networkError
  | invalidJSON
  | otherError
  deriving Repr, DecidableEq

/-- The observable result of a call to `get_city_weather`: the returned
payload or the propagated exception, whether the HTTP GET was issued, and
the log messages emitted. -/
structure GetCityWeatherResult where
  result : Except String WeatherPayload
  requestIssued : Bool
  logs : List String
  deriving Repr

/-- Embedding of `get_city_weather(city)` from `weather_api_service.py`.
An empty city short-circuits to the `"Unknown"` sentinel before
`get_weather_api_url` is consulted; a missing key makes
`get_weather_api_url` raise, and that exception is not caught (it is
raised before the `try` block); otherwise the request is issued and each
failure collapses to a sentinel payload while logging its cause. -/
def get_city_weather (apiKey baseUrl : Option String) (city : String)
    (outcome : FetchOutcome) : GetCityWeatherResult :=
  if city = "" then
    { result := .ok unknownPayload
      requestIssued := false
      logs := ["No city provided to get_city_weather"] }
  else
    match get_weather_api_url apiKey baseUrl city with
    | .error e =>
        { result := .error e
          requestIssued := false
          logs := ["WEATHER_API_KEY environment variable is not set or empty"] }
    | .ok _url =>
        match outcome with
        | .success resp =>
            { result := .ok (handle_weather_api_response resp)
              requestIssued := true
              logs := [] }
        | .timeout =>
            { result := .ok unavailablePayload
              requestIssued := true
              logs := ["Request timed out fetching weather for " ++ city] }
        | .httpError =>
            { result := .ok unknownPayload
              requestIssued := true
              logs := ["HTTP error fetching weather for " ++ city] }
        | .networkError =>
            { result := .ok unknownPayload
              requestIssued := true
              logs := ["Network error fetching weather for " ++ city] }
        | .invalidJSON =>
            { result := .ok unknownPayload
              requestIssued := true
              logs := ["Invalid JSON response for " ++ city] }
        | .otherError =>
            { result := .ok unknownPayload
              requestIssued := true
              logs := ["Unexpected error fetching weather for " ++ city] }

/-- One Observation record, as assembled by `fetch_weather_data` in
`weather_data_service.py`. -/
structure WeatherRecord where
  timestamp : String
  city : String
  temperature_c : Option ℚ
  temperature_f : Option ℚ
  humidity : Option ℚ
  condition : String
  deriving Repr, DecidableEq

/-- The record literal built inside the loop of `fetch_weather_data`. -/
def buildRecord (now : String) (city : String) (weather_info : WeatherPayload) :
    WeatherRecord :=
  { timestamp := now
    city := city
    temperature_c := weather_info.temperature
    temperature_f := weather_info.temperature_f
    humidity := weather_info.humidity
    condition := weather_info.condition }

/-- Embedding of `fetch_weather_data(cities)` from `weather_data_service.py`.
`fetch` stands for a (non-raising) `get_city_weather` call and `now` for the
value of `datetime.now()` at the iteration for index `i`: the loop appends
one record per city, in input order, each stamped independently. -/
def fetch_weather_data (fetch : String → WeatherPayload) (now : Nat → String)
    (cities : List String) : List WeatherRecord :=
  cities.enum.map (fun p => buildRecord (now p.1) p.2 (fetch p.2))

/-! ### NumPy primitives, embedded over `ℚ`

`np.mean`, `np.var` (population, `ddof = 0`), `np.max`, `np.min`,
`np.median` and `np.percentile` (linear interpolation) on a 1-d array.
`np.std` is `sqrt (np.var)`; it is represented through its square, and every
statement about it quantifies over a real `s ≥ 0` with `s ^ 2` equal to the
variance. -/

/-- Embedding of `np.mean` of a 1-d array. -/
def npMean (l : List ℚ) : ℚ := l.sum / l.length

/-- Embedding of `np.var` of a 1-d array (population variance, the NumPy default).
`np.std` is its square root. -/
def npVar (l : List ℚ) : ℚ := ((l.map (fun t => (t - npMean l) ^ 2)).sum) / l.length

/-- Embedding of `np.max` of a 1-d array (the source only applies it to non-empty input). -/
def npMax : List ℚ → ℚ
  | [] => 0
  | x :: xs => xs.foldl max x

/-- Embedding of `np.min` of a 1-d array (the source only applies it to non-empty input). -/
def npMin : List ℚ → ℚ
  | [] => 0
  | x :: xs => xs.foldl min x

/-- Insertion into a sorted list, the helper for `npSort`. -/
def insertSorted (x : ℚ) : List ℚ → List ℚ
  | [] => [x]
  | y :: ys => if x ≤ y then x :: y :: ys else y :: insertSorted x ys

/-- Sorting in non-decreasing order (the sort underlying `np.median` and
`np.percentile`). -/
def npSort (l : List ℚ) : List ℚ := l.foldr insertSorted []

/-- Embedding of `np.median`: middle element of the sorted array, or the mean of the two
middle elements when the length is even. -/
def npMedian (l : List ℚ) : ℚ :=
  let s := npSort l
  let n := l.length
  if n % 2 = 1 then s.getD (n / 2) 0
  else (s.getD (n / 2 - 1) 0 + s.getD (n / 2) 0) / 2

/-- Embedding of `np.percentile` with the default linear-interpolation method:
virtual rank `q / 100 * (n - 1)` into the sorted array, interpolating
between the two neighbouring elements. -/
def npPercentile (l : List ℚ) (q : ℚ) : ℚ :=
  let s := npSort l
  let n := l.length
  let rank : ℚ := q / 100 * ((n : ℚ) - 1)
  let i : ℕ := (Rat.floor rank).toNat
  let frac : ℚ := rank - (i : ℚ)
  if i + 1 < n then s.getD i 0 + frac * (s.getD (i + 1) 0 - s.getD i 0)
  else s.getD i 0

/-- The `stats` dictionary of `calculate_temperature_statistics`.
The source's `std_dev` entry is `np.std(temp_values)`, the square root of
`variance`; it is carried here through its square `std_dev_sq`, since the
square root of a rational is in general irrational. -/
structure StatsSummary where
  average : ℚ
  median : ℚ
  max : ℚ
  min : ℚ
  std_dev_sq : ℚ
  variance : ℚ
  range : ℚ
  percentile_25 : ℚ
  percentile_75 : ℚ
  deriving Repr, DecidableEq

/-- The comprehension
`[record['temperature_c'] for record in temperature_records if record['temperature_c'] is not None]`
shared by `calculate_temperature_statistics` and
`analyze_humidity_correlation`. -/
def statsTempValues (temperature_records : List WeatherRecord) : List ℚ :=
  temperature_records.filterMap (fun record => record.temperature_c)

/-- Embedding of `calculate_temperature_statistics(temperature_records)` from
`weather_numpy_analyzer.py`: `None` when no valid temperature exists,
otherwise the dictionary of NumPy statistics over the non-null
temperatures. -/
def calculate_temperature_statistics (temperature_records : List WeatherRecord) :
    Option StatsSummary :=
  let temp_values := statsTempValues temperature_records
  if temp_values.length = 0 then none
  else some
    { average := npMean temp_values
      median := npMedian temp_values
      max := npMax temp_values
      min := npMin temp_values
      std_dev_sq := npVar temp_values
      variance := npVar temp_values
      range := npMax temp_values - npMin temp_values
      percentile_25 := npPercentile temp_values 25
      percentile_75 := npPercentile temp_values 75 }

/-- The Python dict comprehension
`{record['city']: record['temperature_c'] for record in temperature_records}`:
for a duplicated city the later record overwrites the earlier one, so the
lookup finds the last matching record.  `none` models a city absent from the
dict; `some none` a city mapped to `None`. -/
def city_temp_map (temperature_records : List WeatherRecord) (city : String) :
    Option (Option ℚ) :=
  ((temperature_records.reverse).find? (fun record => record.city = city)).map
    (fun record => record.temperature_c)

/-- The `temp_values` comprehension of `identify_temperature_patterns`:
`[city_temp_map[city] for city in cities if city in city_temp_map and city_temp_map[city] is not None]`. -/
def temp_values_for (temperature_records : List WeatherRecord)
    (cities : List String) : List ℚ :=
  cities.filterMap (fun city => (city_temp_map temperature_records city).bind id)

/-- The `city_names` comprehension of `identify_temperature_patterns`: the same comprehension
filter as `temp_values_for`, keeping the city name instead of the value. -/
def city_names_for (temperature_records : List WeatherRecord)
    (cities : List String) : List String :=
  cities.filter (fun city => ((city_temp_map temperature_records city).bind id).isSome)

/-- Embedding of `np.argmax` on a 1-d array: the index of the FIRST occurrence of the
maximum (NumPy's documented tie rule). -/
def npArgmax (l : List ℚ) : ℕ := l.findIdx (fun x => decide (x = npMax l))

/-- Embedding of `np.argmin` on a 1-d array: the index of the first occurrence of the
minimum. -/
def npArgmin (l : List ℚ) : ℕ := l.findIdx (fun x => decide (x = npMin l))

/-- The test `temp > mean + np.std(...)`, the `hot`-zone test of
`identify_temperature_patterns`, with the square root eliminated:
for `s = sqrt v ≥ 0`, `m + s < t ↔ m < t ∧ v < (t - m) ^ 2`
(proved as `zone_tests_match_source` below). -/
def zoneHot (m v t : ℚ) : Bool := decide (m < t ∧ v < (t - m) ^ 2)

/-- The test `temp < mean - np.std(...)`, the `cold`-zone test, with the square root
eliminated: for `s = sqrt v ≥ 0`, `t < m - s ↔ t < m ∧ v < (m - t) ^ 2`. -/
def zoneCold (m v t : ℚ) : Bool := decide (t < m ∧ v < (m - t) ^ 2)

/-- The test `np.abs(temp - mean) <= np.std(...)`, the `moderate`-zone test, with the
square root eliminated: for `s = sqrt v ≥ 0`,
`|t - m| ≤ s ↔ (t - m) ^ 2 ≤ v`. -/
def zoneModerate (m v t : ℚ) : Bool := decide ((t - m) ^ 2 ≤ v)

/-- The `patterns` dictionary of `identify_temperature_patterns` when the
`len(temp_values) > 0` branch is taken; the zone entry is flattened into the
three counts. -/
structure PatternSummary where
  hottest_city : String
  hottest_temp : ℚ
  coldest_city : String
  coldest_temp : ℚ
  temperature_anomalies : List (String × ℚ)
  zones_hot : ℕ
  zones_moderate : ℕ
  zones_cold : ℕ
  deriving Repr, DecidableEq

/-- Embedding of `identify_temperature_patterns(temperature_records, cities)` from
`weather_numpy_analyzer.py`.  `none` models the empty dictionary returned
when no city contributes a non-null temperature (the guard
`len(temp_values) > 0` fails and `patterns` stays `{}`). -/
def identify_temperature_patterns (temperature_records : List WeatherRecord)
    (cities : List String) : Option PatternSummary :=
  let temp_values := temp_values_for temperature_records cities
  let city_names := city_names_for temperature_records cities
  if temp_values.length > 0 then
    let mean_temp := npMean temp_values
    let var_temp := npVar temp_values
    some
      { hottest_city := city_names.getD (npArgmax temp_values) ""
        hottest_temp := temp_values.getD (npArgmax temp_values) 0
        coldest_city := city_names.getD (npArgmin temp_values) ""
        coldest_temp := temp_values.getD (npArgmin temp_values) 0
        temperature_anomalies := city_names.zip (temp_values.map (fun t => t - mean_temp))
        zones_hot := temp_values.countP (zoneHot mean_temp var_temp)
        zones_moderate := temp_values.countP (zoneModerate mean_temp var_temp)
        zones_cold := temp_values.countP (zoneCold mean_temp var_temp) }
  else none

/-- The comprehension
`[record['humidity'] for record in temperature_records if record['humidity'] is not None]`
of `analyze_humidity_correlation`: humidities filtered INDEPENDENTLY of the
temperatures. -/
def corr_humidity_values (temperature_records : List WeatherRecord) : List ℚ :=
  temperature_records.filterMap (fun record => record.humidity)

/-- The pairwise extraction the specification describes: the
`(temperature_c, humidity)` pairs of the records in which BOTH fields are
non-null.  This is NOT what the source computes; it is compared against the
source's independent filtering to settle the correlation claim. -/
def paired_values (temperature_records : List WeatherRecord) : List (ℚ × ℚ) :=
  temperature_records.filterMap (fun record =>
    record.temperature_c.bind (fun t => record.humidity.map (fun h => (t, h))))

/-- Embedding of `analyze_humidity_correlation(temperature_records)` from
`weather_numpy_analyzer.py`.  The source builds `temp_values` and
`humidity_values` by two independent comprehensions and, when both have
length `> 1`, calls `np.corrcoef(temp_values, humidity_values)`, which
raises `ValueError` when the two 1-d arrays have different lengths
(modelled as `.error`).  The Pearson coefficient itself involves a square
root, so the equal-length case is parametrised by `corrcoef`; no claim here
depends on its value.  `.ok none` models the empty dictionary returned when
a length guard fails; the derived interpretation string is omitted, being a
function of the coefficient alone. -/
def analyze_humidity_correlation (corrcoef : List ℚ → List ℚ → ℚ)
    (temperature_records : List WeatherRecord) : Except String (Option ℚ) :=
  let temp_values := statsTempValues temperature_records
  let humidity_values := corr_humidity_values temperature_records
  if temp_values.length > 1 ∧ humidity_values.length > 1 then
    if temp_values.length = humidity_values.length then
      .ok (some (corrcoef temp_values humidity_values))
    else
      .error "ValueError: all the input array dimensions must match exactly"
  else
    .ok none

/-! ### Helper lemmas -/

theorem getD_eq_get {α : Type} (l : List α) (d : α) (i : ℕ) (h : i < l.length) :
    l.getD i d = l[i] := by
  simp [List.getD_eq_getElem?_getD, List.getElem?_eq_getElem h]

theorem foldl_max_mem (xs : List ℚ) (x : ℚ) : xs.foldl max x = x ∨ xs.foldl max x ∈ xs := by
  induction xs generalizing x with
  | nil => exact Or.inl rfl
  | cons y ys ih =>
      simp only [List.foldl_cons]
      rcases ih (max x y) with h | h
      · rcases max_choice x y with hm | hm
        · exact Or.inl (by rw [h, hm])
        · right
          rw [h, hm]
          exact List.mem_cons_self y ys
      · exact Or.inr (List.mem_cons_of_mem y h)

theorem seed_le_foldl_max (xs : List ℚ) (x : ℚ) : x ≤ xs.foldl max x := by
  induction xs generalizing x with
  | nil => exact le_refl x
  | cons y ys ih =>
      simp only [List.foldl_cons]
      exact le_trans (le_max_left x y) (ih (max x y))

theorem mem_le_foldl_max (xs : List ℚ) : ∀ (x y : ℚ), y ∈ xs → y ≤ xs.foldl max x := by
  induction xs with
  | nil => intro x y h; cases h
  | cons z zs ih =>
      intro x y h
      simp only [List.foldl_cons]
      rcases List.mem_cons.mp h with h' | h'
      · rw [h']
        exact le_trans (le_max_right x z) (seed_le_foldl_max zs (max x z))
      · exact ih (max x z) y h'

theorem npMax_mem (l : List ℚ) (h : l ≠ []) : npMax l ∈ l := by
  match l with
  | [] => exact absurd rfl h
  | x :: xs =>
      rcases foldl_max_mem xs x with h' | h'
      · rw [npMax, h']
        exact List.mem_cons_self x xs
      · exact List.mem_cons_of_mem x h'

theorem le_npMax (l : List ℚ) (y : ℚ) (h : y ∈ l) : y ≤ npMax l := by
  match l with
  | [] => cases h
  | x :: xs =>
      rcases List.mem_cons.mp h with h' | h'
      · exact h' ▸ seed_le_foldl_max xs x
      · exact mem_le_foldl_max xs x y h'

theorem foldl_min_mem (xs : List ℚ) (x : ℚ) : xs.foldl min x = x ∨ xs.foldl min x ∈ xs := by
  induction xs generalizing x with
  | nil => exact Or.inl rfl
  | cons y ys ih =>
      simp only [List.foldl_cons]
      rcases ih (min x y) with h | h
      · rcases min_choice x y with hm | hm
        · exact Or.inl (by rw [h, hm])
        · right
          rw [h, hm]
          exact List.mem_cons_self y ys
      · exact Or.inr (List.mem_cons_of_mem y h)

theorem foldl_min_le_seed (xs : List ℚ) (x : ℚ) : xs.foldl min x ≤ x := by
  induction xs generalizing x with
  | nil => exact le_refl x
  | cons y ys ih =>
      simp only [List.foldl_cons]
      exact le_trans (ih (min x y)) (min_le_left x y)

theorem foldl_min_le_mem (xs : List ℚ) : ∀ (x y : ℚ), y ∈ xs → xs.foldl min x ≤ y := by
  induction xs with
  | nil => intro x y h; cases h
  | cons z zs ih =>
      intro x y h
      simp only [List.foldl_cons]
      rcases List.mem_cons.mp h with h' | h'
      · rw [h']
        exact le_trans (foldl_min_le_seed zs (min x z)) (min_le_right x z)
      · exact ih (min x z) y h'

theorem npMin_mem (l : List ℚ) (h : l ≠ []) : npMin l ∈ l := by
  match l with
  | [] => exact absurd rfl h
  | x :: xs =>
      rcases foldl_min_mem xs x with h' | h'
      · rw [npMin, h']
        exact List.mem_cons_self x xs
      · exact List.mem_cons_of_mem x h'

theorem npMin_le (l : List ℚ) (y : ℚ) (h : y ∈ l) : npMin l ≤ y := by
  match l with
  | [] => cases h
  | x :: xs =>
      rcases List.mem_cons.mp h with h' | h'
      · exact h' ▸ foldl_min_le_seed xs x
      · exact foldl_min_le_mem xs x y h'

theorem filter_isSome_length {α β : Type} (f : α → Option β) (l : List α) :
    (l.filter (fun a => (f a).isSome)).length = (l.filterMap f).length := by
  induction l with
  | nil => rfl
  | cons a t ih =>
      cases h : f a with
      | none => simp [List.filter_cons, List.filterMap_cons, h, ih]
      | some b => simp [List.filter_cons, List.filterMap_cons, h, ih]

theorem filter_filterMap_aligned {α β : Type} (f : α → Option β) (d : α) (d' : β) :
    ∀ (l : List α) (i : ℕ), i < (l.filter (fun a => (f a).isSome)).length →
      f ((l.filter (fun a => (f a).isSome)).getD i d)
        = some ((l.filterMap f).getD i d') := by
  intro l
  induction l with
  | nil => intro i hi; simp at hi
  | cons a t ih =>
      intro i hi
      cases h : f a with
      | none =>
          simp only [List.filter_cons, List.filterMap_cons, h, Option.isSome_none,
            cond_false] at hi ⊢
          exact ih i hi
      | some b =>
          simp only [List.filter_cons, List.filterMap_cons, h, Option.isSome_some,
            cond_true] at hi ⊢
          cases i with
          | zero => simpa [List.getD_cons_zero] using h
          | succ n =>
              simp only [List.getD_cons_succ]
              exact ih n (by simpa [List.length_cons] using Nat.lt_of_succ_lt_succ hi)

theorem npVar_nonneg (l : List ℚ) : 0 ≤ npVar l := by
  unfold npVar
  apply div_nonneg
  · apply List.sum_nonneg
    intro x hx
    simp only [List.mem_map] at hx
    obtain ⟨t, _, rfl⟩ := hx
    positivity
  · exact Nat.cast_nonneg _

/-- The square-root elimination used by the zone tests: for any real
`s ≥ 0` with `s ^ 2` equal to the variance (i.e. `s = np.std`), `zoneHot`,
`zoneCold` and `zoneModerate` decide exactly the source's comparisons
`temp > mean + std`, `temp < mean - std` and `|temp - mean| <= std`. -/
theorem zone_tests_match_source (m v t : ℚ) (s : ℝ) (hs : 0 ≤ s)
    (hsq : s ^ 2 = (v : ℝ)) :
    (zoneHot m v t = true ↔ (m : ℝ) + s < (t : ℝ)) ∧
    (zoneCold m v t = true ↔ (t : ℝ) < (m : ℝ) - s) ∧
    (zoneModerate m v t = true ↔ |(t : ℝ) - (m : ℝ)| ≤ s) := by
  have hcast : ∀ a b : ℚ, (a < b ↔ (a : ℝ) < (b : ℝ)) := fun a b => by exact_mod_cast Iff.rfl
  refine ⟨?_, ?_, ?_⟩
  · simp only [zoneHot, decide_eq_true_eq]
    constructor
    · rintro ⟨h1, h2⟩
      have h1r : (m : ℝ) < (t : ℝ) := by exact_mod_cast h1
      have h2r : s ^ 2 < ((t : ℝ) - (m : ℝ)) ^ 2 := by
        rw [hsq]
        exact_mod_cast h2
      have : s < (t : ℝ) - (m : ℝ) :=
        lt_of_pow_lt_pow_left₀ 2 (by linarith) h2r
      linarith
    · intro h
      have h1r : (m : ℝ) < (t : ℝ) := by linarith
      have h2r : s ^ 2 < ((t : ℝ) - (m : ℝ)) ^ 2 := by
        have hlt : s < (t : ℝ) - (m : ℝ) := by linarith
        exact pow_lt_pow_left₀ hlt hs (by norm_num)
      constructor
      · exact_mod_cast h1r
      · rw [hsq] at h2r
        have : ((v : ℚ) : ℝ) < (((t - m) ^ 2 : ℚ) : ℝ) := by push_cast; convert h2r using 2
        exact_mod_cast this
  · simp only [zoneCold, decide_eq_true_eq]
    constructor
    · rintro ⟨h1, h2⟩
      have h1r : (t : ℝ) < (m : ℝ) := by exact_mod_cast h1
      have h2r : s ^ 2 < ((m : ℝ) - (t : ℝ)) ^ 2 := by
        rw [hsq]
        exact_mod_cast h2
      have : s < (m : ℝ) - (t : ℝ) :=
        lt_of_pow_lt_pow_left₀ 2 (by linarith) h2r
      linarith
    · intro h
      have h1r : (t : ℝ) < (m : ℝ) := by linarith
      have h2r : s ^ 2 < ((m : ℝ) - (t : ℝ)) ^ 2 := by
        have hlt : s < (m : ℝ) - (t : ℝ) := by linarith
        exact pow_lt_pow_left₀ hlt hs (by norm_num)
      constructor
      · exact_mod_cast h1r
      · rw [hsq] at h2r
        have : ((v : ℚ) : ℝ) < (((m - t) ^ 2 : ℚ) : ℝ) := by push_cast; convert h2r using 2
        exact_mod_cast this
  · simp only [zoneModerate, decide_eq_true_eq]
    have habs : |(t : ℝ) - (m : ℝ)| ≤ s ↔ ((t : ℝ) - (m : ℝ)) ^ 2 ≤ s ^ 2 := by
      rw [← sq_abs]
      exact (pow_le_pow_iff_left₀ (abs_nonneg _) hs (by norm_num)).symm
    rw [habs, hsq]
    constructor
    · intro h
      have : (((t - m) ^ 2 : ℚ) : ℝ) ≤ ((v : ℚ) : ℝ) := by exact_mod_cast h
      push_cast at this
      convert this using 2
    · intro h
      have : (((t - m) ^ 2 : ℚ) : ℝ) ≤ ((v : ℚ) : ℝ) := by push_cast; convert h using 2
      exact_mod_cast this

/-- The three zone tests partition the temperatures (for the nonnegative
variance the source computes): `moderate` holds exactly when neither `hot`
nor `cold` does, i.e. the source's `<=` test is the complement of the two
strict tests. -/
theorem zone_tests_partition (m v t : ℚ) (hv : 0 ≤ v) :
    zoneModerate m v t = true ↔ (zoneHot m v t = false ∧ zoneCold m v t = false) := by
  simp only [zoneHot, zoneCold, zoneModerate, decide_eq_true_eq,
    decide_eq_false_iff_not]
  constructor
  · intro h
    constructor
    · rintro ⟨_, h2⟩
      exact absurd h (not_le.mpr h2)
    · rintro ⟨_, h2⟩
      rw [show (m - t) ^ 2 = (t - m) ^ 2 from by ring] at h2
      exact absurd h (not_le.mpr h2)
  · rintro ⟨h1, h2⟩
    by_contra hc
    push_neg at hc
    rcases lt_trichotomy m t with hmt | hmt | hmt
    · exact h1 ⟨hmt, hc⟩
    · rw [hmt] at hc
      simp at hc
      exact absurd hv (not_le.mpr hc)
    · refine h2 ⟨hmt, ?_⟩
      rw [show (m - t) ^ 2 = (t - m) ^ 2 from by ring]
      exact hc

/-! ### Claim theorems -/

/-- Claim C5: for the empty-string city, `get_city_weather` returns the
sentinel payload `{temperature: null, temperature_f: null, humidity: null,
condition: "Unknown"}` without issuing any network call and without
requiring the credential to be present (the equation holds for every value
of the `WEATHER_API_KEY` environment variable, including unset). -/
theorem empty_city_short_circuits (apiKey baseUrl : Option String)
    (outcome : FetchOutcome) :
    get_city_weather apiKey baseUrl "" outcome =
      { result := .ok unknownPayload
        requestIssued := false
        logs := ["No city provided to get_city_weather"] } := rfl

/-- Claim C4: if `WEATHER_API_KEY` is absent (unset or empty), fetching
weather for any non-empty city raises the configuration error before any
HTTP request is issued, and the error propagates (the result is `.error`,
not a sentinel payload); and this is the sole fatal condition: with the key
present, every outcome returns a payload normally. -/
theorem missing_api_key_aborts_before_request :
    (∀ (apiKey baseUrl : Option String) (city : String) (outcome : FetchOutcome),
        apiKeyPresent apiKey = false → city ≠ "" →
          (get_city_weather apiKey baseUrl city outcome).result =
              .error "WEATHER_API_KEY environment variable is not set or empty" ∧
          (get_city_weather apiKey baseUrl city outcome).requestIssued = false) ∧
    (∀ (apiKey baseUrl : Option String) (city : String) (outcome : FetchOutcome),
        apiKeyPresent apiKey = true →
          ∃ p, (get_city_weather apiKey baseUrl city outcome).result = .ok p) := by
  constructor
  · intro apiKey baseUrl city outcome hkey hcity
    constructor <;> simp [get_city_weather, get_weather_api_url, hkey, hcity]
  · intro apiKey baseUrl city outcome hkey
    by_cases hcity : city = ""
    · exact ⟨unknownPayload, by simp [get_city_weather, hcity]⟩
    · cases outcome with
      | success resp =>
          exact ⟨handle_weather_api_response resp,
            by simp [get_city_weather, get_weather_api_url, hkey, hcity]⟩
      | timeout =>
          exact ⟨unavailablePayload,
            by simp [get_city_weather, get_weather_api_url, hkey, hcity]⟩
      | httpError =>
          exact ⟨unknownPayload,
            by simp [get_city_weather, get_weather_api_url, hkey, hcity]⟩
      | networkError =>
          exact ⟨unknownPayload,
            by simp [get_city_weather, get_weather_api_url, hkey, hcity]⟩
      | invalidJSON =>
          exact ⟨unknownPayload,
            by simp [get_city_weather, get_weather_api_url, hkey, hcity]⟩
      | otherError =>
          exact ⟨unknownPayload,
            by simp [get_city_weather, get_weather_api_url, hkey, hcity]⟩

/-- Witness for C4 at a concrete input: with the key unset and city
`"Paris"`, the call returns the propagated error without a request. -/
theorem missing_api_key_aborts_before_request_witness :
    apiKeyPresent none = false ∧ ("Paris" : String) ≠ "" ∧
    ((get_city_weather none none "Paris" FetchOutcome.timeout).result =
        .error "WEATHER_API_KEY environment variable is not set or empty" ∧
      (get_city_weather none none "Paris" FetchOutcome.timeout).requestIssued = false) :=
  ⟨rfl, by decide,
    missing_api_key_aborts_before_request.1 none none "Paris" FetchOutcome.timeout rfl
      (by decide)⟩

/-- Claim C3: for every non-empty city (with the credential present, so
that a fetch actually happens), `get_city_weather` never raises on a failed
fetch: timeout yields the `"Unavailable"` sentinel and HTTP error, network
error and malformed JSON each yield the `"Unknown"` sentinel; the two
sentinels differ, so the payload distinguishes only timeout from the rest;
and every failure cause is logged with its specific message. -/
theorem get_city_weather_failure_collapse (apiKey baseUrl : Option String)
    (city : String) (hcity : city ≠ "") (hkey : apiKeyPresent apiKey = true) :
    ((get_city_weather apiKey baseUrl city FetchOutcome.timeout).result =
        .ok unavailablePayload ∧
      (get_city_weather apiKey baseUrl city FetchOutcome.httpError).result =
        .ok unknownPayload ∧
      (get_city_weather apiKey baseUrl city FetchOutcome.networkError).result =
        .ok unknownPayload ∧
      (get_city_weather apiKey baseUrl city FetchOutcome.invalidJSON).result =
        .ok unknownPayload) ∧
    unavailablePayload ≠ unknownPayload ∧
    ((get_city_weather apiKey baseUrl city FetchOutcome.timeout).logs =
        ["Request timed out fetching weather for " ++ city] ∧
      (get_city_weather apiKey baseUrl city FetchOutcome.httpError).logs =
        ["HTTP error fetching weather for " ++ city] ∧
      (get_city_weather apiKey baseUrl city FetchOutcome.networkError).logs =
        ["Network error fetching weather for " ++ city] ∧
      (get_city_weather apiKey baseUrl city FetchOutcome.invalidJSON).logs =
        ["Invalid JSON response for " ++ city]) := by
  refine ⟨⟨?_, ?_, ?_, ?_⟩, by decide, ⟨?_, ?_, ?_, ?_⟩⟩ <;>
    simp [get_city_weather, get_weather_api_url, hkey, hcity]

/-- Witness for C3 at a concrete input: city `"Paris"` with a set key. -/
theorem get_city_weather_failure_collapse_witness :
    ("Paris" : String) ≠ "" ∧ apiKeyPresent (some "key") = true ∧
    (((get_city_weather (some "key") none "Paris" FetchOutcome.timeout).result =
        .ok unavailablePayload ∧
      (get_city_weather (some "key") none "Paris" FetchOutcome.httpError).result =
        .ok unknownPayload ∧
      (get_city_weather (some "key") none "Paris" FetchOutcome.networkError).result =
        .ok unknownPayload ∧
      (get_city_weather (some "key") none "Paris" FetchOutcome.invalidJSON).result =
        .ok unknownPayload) ∧
    unavailablePayload ≠ unknownPayload ∧
    ((get_city_weather (some "key") none "Paris" FetchOutcome.timeout).logs =
        ["Request timed out fetching weather for " ++ "Paris"] ∧
      (get_city_weather (some "key") none "Paris" FetchOutcome.httpError).logs =
        ["HTTP error fetching weather for " ++ "Paris"] ∧
      (get_city_weather (some "key") none "Paris" FetchOutcome.networkError).logs =
        ["Network error fetching weather for " ++ "Paris"] ∧
      (get_city_weather (some "key") none "Paris" FetchOutcome.invalidJSON).logs =
        ["Invalid JSON response for " ++ "Paris"])) :=
  ⟨by decide, by decide,
    get_city_weather_failure_collapse (some "key") none "Paris" (by decide) (by decide)⟩

/-- Claim C2: for every non-empty ordered list of city names,
`fetch_weather_data` returns a record list of exactly the same length, and
the record at index `i` carries the city at index `i` of the input
(order-preserving, one record per city). -/
theorem fetch_weather_data_preserves_cities (fetch : String → WeatherPayload)
    (now : Nat → String) (cities : List String) (_h : cities ≠ []) :
    (fetch_weather_data fetch now cities).length = cities.length ∧
    ∀ i : ℕ, i < cities.length →
      ((fetch_weather_data fetch now cities)[i]?.map (fun r => r.city)) = cities[i]? := by
  constructor
  · simp [fetch_weather_data, List.enum_length]
  · intro i hi
    simp [fetch_weather_data, List.getElem?_map, List.getElem?_enum,
      List.getElem?_eq_getElem hi, buildRecord]

/-- Witness for C2 at a concrete input: two cities, a constant fetch. -/
theorem fetch_weather_data_preserves_cities_witness :
    (["London", "Paris"] : List String) ≠ [] ∧
    ((fetch_weather_data (fun _ => unknownPayload) (fun _ => "t0")
        ["London", "Paris"]).length = (["London", "Paris"] : List String).length ∧
      ∀ i : ℕ, i < (["London", "Paris"] : List String).length →
        ((fetch_weather_data (fun _ => unknownPayload) (fun _ => "t0")
            ["London", "Paris"])[i]?.map (fun r => r.city)) =
          (["London", "Paris"] : List String)[i]?) :=
  ⟨by decide,
    fetch_weather_data_preserves_cities (fun _ => unknownPayload) (fun _ => "t0")
      ["London", "Paris"] (by decide)⟩

/-- A concrete record for witnesses: `fetch_weather_data` output shape. -/
def exRecord (city : String) (t h : Option ℚ) : WeatherRecord :=
  { timestamp := "2026-10-12 00:00:00"
    city := city
    temperature_c := t
    temperature_f := none
    humidity := h
    condition := "Cloudy" }

/-- Claim C9: for every record list in which zero records have a non-null
temperature, `calculate_temperature_statistics` returns `None` rather than
raising any numeric-library error (the function is total here and takes the
early-return branch). -/
theorem no_valid_temps_stats_none (temperature_records : List WeatherRecord)
    (h : ∀ r ∈ temperature_records, r.temperature_c = none) :
    calculate_temperature_statistics temperature_records = none := by
  have htv : statsTempValues temperature_records = [] := by
    simp only [statsTempValues, List.filterMap_eq_nil_iff]
    exact h
  simp [calculate_temperature_statistics, htv]

/-- Witness for C9 at a concrete input: one record with null temperature. -/
theorem no_valid_temps_stats_none_witness :
    (∀ r ∈ [exRecord "London" none none], r.temperature_c = none) ∧
    calculate_temperature_statistics [exRecord "London" none none] = none :=
  ⟨by decide, no_valid_temps_stats_none [exRecord "London" none none] (by decide)⟩

/-- Claim C10: for every record list and city list in which no city has a
non-null temperature, `identify_temperature_patterns` returns the empty
dictionary (modelled as `none`: no `hottest_city`, `coldest_city`,
`temperature_anomalies` or `temperature_zones` entries) and raises no
error — the guard `len(temp_values) > 0` keeps the argmax branch
unreachable. -/
theorem no_valid_temps_patterns_empty (temperature_records : List WeatherRecord)
    (cities : List String)
    (h : ∀ city ∈ cities, (city_temp_map temperature_records city).bind id = none) :
    identify_temperature_patterns temperature_records cities = none := by
  have htv : temp_values_for temperature_records cities = [] := by
    simp only [temp_values_for, List.filterMap_eq_nil_iff]
    exact h
  simp [identify_temperature_patterns, htv]

/-- Witness for C10 at a concrete input: a record with null temperature for
`"London"`, a city `"Oslo"` with no record at all. -/
theorem no_valid_temps_patterns_empty_witness :
    (∀ city ∈ ["London", "Oslo"],
      (city_temp_map [exRecord "London" none (some 80)] city).bind id = none) ∧
    identify_temperature_patterns [exRecord "London" none (some 80)]
      ["London", "Oslo"] = none :=
  ⟨by decide,
    no_valid_temps_patterns_empty [exRecord "London" none (some 80)]
      ["London", "Oslo"] (by decide)⟩

/-- The record list whose non-null temperatures are `[10, 20, 30]`. -/
def c8_records : List WeatherRecord :=
  [exRecord "A" (some 10) none, exRecord "B" (some 20) none, exRecord "C" (some 30) none]

/-- Claim C8: `calculate_temperature_statistics` on temperatures
`[10, 20, 30]` yields average 20, median 20, min 10, max 30, range 20, and
a standard deviation of `sqrt (200 / 3) ≈ 8.165` — the population standard
deviation, captured by `variance = std_dev ^ 2 = 200 / 3` together with the
bracket `8.164 < sqrt (200 / 3) < 8.166` for any nonnegative real square
root of the variance. -/
theorem statistics_on_10_20_30 :
    (∃ s, calculate_temperature_statistics c8_records = some s ∧
      s.average = 20 ∧ s.median = 20 ∧ s.min = 10 ∧ s.max = 30 ∧ s.range = 20 ∧
      s.std_dev_sq = 200 / 3 ∧ s.variance = 200 / 3) ∧
    ∀ s : ℝ, 0 ≤ s → s ^ 2 = (200 / 3 : ℝ) → 8.164 < s ∧ s < 8.166 := by
  constructor
  · simp [calculate_temperature_statistics, statsTempValues, npMean, npMedian, npMax,
      npMin, npVar, npSort, insertSorted, c8_records, exRecord]
    norm_num
  · intro s hs hsq
    constructor
    · have h2 : (8.164 : ℝ) ^ 2 < s ^ 2 := by rw [hsq]; norm_num
      exact lt_of_pow_lt_pow_left₀ 2 hs h2
    · have h2 : s ^ 2 < (8.166 : ℝ) ^ 2 := by rw [hsq]; norm_num
      exact lt_of_pow_lt_pow_left₀ 2 (by norm_num) h2

/-- Witness for C8's standard-deviation part at the concrete square root
`Real.sqrt (200 / 3)`. -/
theorem statistics_on_10_20_30_witness :
    0 ≤ Real.sqrt (200 / 3) ∧ Real.sqrt (200 / 3) ^ 2 = (200 / 3 : ℝ) ∧
    (8.164 < Real.sqrt (200 / 3) ∧ Real.sqrt (200 / 3) < 8.166) :=
  ⟨Real.sqrt_nonneg _, Real.sq_sqrt (by norm_num),
    statistics_on_10_20_30.2 _ (Real.sqrt_nonneg _) (Real.sq_sqrt (by norm_num))⟩

/-- Claim C7: in `identify_temperature_patterns`, for any real standard
deviation `s` (any `s ≥ 0` with `s ^ 2` equal to the variance of the
filtered temperatures), a temperature is counted `hot` iff it is strictly
greater than `mean + s`, `cold` iff strictly less than `mean - s`, and
`moderate` exactly when neither holds; a temperature exactly one standard
deviation from the mean (`|t - mean| = s`) is classified `moderate`. -/
theorem temperature_zone_thresholds (temperature_records : List WeatherRecord)
    (cities : List String) (t : ℚ) (s : ℝ) (hs : 0 ≤ s)
    (hsq : s ^ 2 = ((npVar (temp_values_for temperature_records cities) : ℚ) : ℝ)) :
    (zoneHot (npMean (temp_values_for temperature_records cities))
        (npVar (temp_values_for temperature_records cities)) t = true ↔
      ((npMean (temp_values_for temperature_records cities) : ℚ) : ℝ) + s < (t : ℝ)) ∧
    (zoneCold (npMean (temp_values_for temperature_records cities))
        (npVar (temp_values_for temperature_records cities)) t = true ↔
      (t : ℝ) < ((npMean (temp_values_for temperature_records cities) : ℚ) : ℝ) - s) ∧
    (zoneModerate (npMean (temp_values_for temperature_records cities))
        (npVar (temp_values_for temperature_records cities)) t = true ↔
      |(t : ℝ) - ((npMean (temp_values_for temperature_records cities) : ℚ) : ℝ)| ≤ s) ∧
    (zoneModerate (npMean (temp_values_for temperature_records cities))
        (npVar (temp_values_for temperature_records cities)) t = true ↔
      (zoneHot (npMean (temp_values_for temperature_records cities))
          (npVar (temp_values_for temperature_records cities)) t = false ∧
        zoneCold (npMean (temp_values_for temperature_records cities))
          (npVar (temp_values_for temperature_records cities)) t = false)) ∧
    (|(t : ℝ) - ((npMean (temp_values_for temperature_records cities) : ℚ) : ℝ)| = s →
      zoneModerate (npMean (temp_values_for temperature_records cities))
        (npVar (temp_values_for temperature_records cities)) t = true) := by
  obtain ⟨h1, h2, h3⟩ :=
    zone_tests_match_source (npMean (temp_values_for temperature_records cities))
      (npVar (temp_values_for temperature_records cities)) t s hs hsq
  exact ⟨h1, h2, h3,
    zone_tests_partition _ _ _ (npVar_nonneg _),
    fun he => h3.mpr (le_of_eq he)⟩

/-- The record list for the zone witness: temperatures `[10, 20]`, whose
variance `25` has the exact square root `5`. -/
def c7_records : List WeatherRecord :=
  [exRecord "A" (some 10) none, exRecord "B" (some 20) none]

/-- Witness for C7 at a concrete input: temperatures `[10, 20]` (mean `15`,
variance `25`, standard deviation `5`) and the probe temperature `20`. -/
theorem temperature_zone_thresholds_witness :
    0 ≤ (5 : ℝ) ∧
    (5 : ℝ) ^ 2 = ((npVar (temp_values_for c7_records ["A", "B"]) : ℚ) : ℝ) ∧
    ((zoneHot (npMean (temp_values_for c7_records ["A", "B"]))
        (npVar (temp_values_for c7_records ["A", "B"])) 20 = true ↔
      ((npMean (temp_values_for c7_records ["A", "B"]) : ℚ) : ℝ) + 5 < ((20 : ℚ) : ℝ)) ∧
    (zoneCold (npMean (temp_values_for c7_records ["A", "B"]))
        (npVar (temp_values_for c7_records ["A", "B"])) 20 = true ↔
      ((20 : ℚ) : ℝ) < ((npMean (temp_values_for c7_records ["A", "B"]) : ℚ) : ℝ) - 5) ∧
    (zoneModerate (npMean (temp_values_for c7_records ["A", "B"]))
        (npVar (temp_values_for c7_records ["A", "B"])) 20 = true ↔
      |((20 : ℚ) : ℝ) - ((npMean (temp_values_for c7_records ["A", "B"]) : ℚ) : ℝ)| ≤ 5) ∧
    (zoneModerate (npMean (temp_values_for c7_records ["A", "B"]))
        (npVar (temp_values_for c7_records ["A", "B"])) 20 = true ↔
      (zoneHot (npMean (temp_values_for c7_records ["A", "B"]))
          (npVar (temp_values_for c7_records ["A", "B"])) 20 = false ∧
        zoneCold (npMean (temp_values_for c7_records ["A", "B"]))
          (npVar (temp_values_for c7_records ["A", "B"])) 20 = false)) ∧
    (|((20 : ℚ) : ℝ) - ((npMean (temp_values_for c7_records ["A", "B"]) : ℚ) : ℝ)| = 5 →
      zoneModerate (npMean (temp_values_for c7_records ["A", "B"]))
        (npVar (temp_values_for c7_records ["A", "B"])) 20 = true)) := by
  have hv : npVar (temp_values_for c7_records ["A", "B"]) = 25 := by
    simp [npVar, npMean, temp_values_for, city_temp_map, c7_records, exRecord]
    norm_num
  have hsq : (5 : ℝ) ^ 2 = ((npVar (temp_values_for c7_records ["A", "B"]) : ℚ) : ℝ) := by
    rw [hv]; norm_num
  exact ⟨by norm_num, hsq,
    temperature_zone_thresholds c7_records ["A", "B"] 20 5 (by norm_num) hsq⟩

/-- The record list for the tie-breaking example: temperatures
`{A: 10, B: 30, C: 30}`. -/
def c6_records : List WeatherRecord :=
  [exRecord "A" (some 10) none, exRecord "B" (some 30) none, exRecord "C" (some 30) none]

/-- Claim C6: in `identify_temperature_patterns`, `hottest_city`
(resp. `coldest_city`) is the first city in `cities` order achieving the
maximum (resp. minimum) filtered temperature: there is an index `i` into
the filtered `city_names` such that `hottest_city` is the city at `i`, its
temperature (the one paired with it by the city-to-temperature map) is the
maximum of all filtered temperatures, and no earlier index attains the
maximum; in particular with cities `["A", "B", "C"]` and temperatures
`{A: 10, B: 30, C: 30}`, `hottest_city = "B"` and `coldest_city = "A"`. -/
theorem hottest_coldest_first_occurrence :
    (∀ (temperature_records : List WeatherRecord) (cities : List String),
      temp_values_for temperature_records cities ≠ [] →
      ∃ p, identify_temperature_patterns temperature_records cities = some p ∧
        (∃ i, i < (city_names_for temperature_records cities).length ∧
          p.hottest_city = (city_names_for temperature_records cities).getD i "" ∧
          (city_temp_map temperature_records p.hottest_city).bind id =
            some ((temp_values_for temperature_records cities).getD i 0) ∧
          (temp_values_for temperature_records cities).getD i 0 =
            npMax (temp_values_for temperature_records cities) ∧
          (∀ y ∈ temp_values_for temperature_records cities,
            y ≤ npMax (temp_values_for temperature_records cities)) ∧
          (∀ j, j < i →
            (temp_values_for temperature_records cities).getD j 0 ≠
              npMax (temp_values_for temperature_records cities))) ∧
        (∃ i, i < (city_names_for temperature_records cities).length ∧
          p.coldest_city = (city_names_for temperature_records cities).getD i "" ∧
          (city_temp_map temperature_records p.coldest_city).bind id =
            some ((temp_values_for temperature_records cities).getD i 0) ∧
          (temp_values_for temperature_records cities).getD i 0 =
            npMin (temp_values_for temperature_records cities) ∧
          (∀ y ∈ temp_values_for temperature_records cities,
            npMin (temp_values_for temperature_records cities) ≤ y) ∧
          (∀ j, j < i →
            (temp_values_for temperature_records cities).getD j 0 ≠
              npMin (temp_values_for temperature_records cities)))) ∧
    ((identify_temperature_patterns c6_records ["A", "B", "C"]).map
        (fun p => p.hottest_city) = some "B" ∧
      (identify_temperature_patterns c6_records ["A", "B", "C"]).map
        (fun p => p.coldest_city) = some "A") := by
  constructor
  · intro recs cities h
    have hlen : 0 < (temp_values_for recs cities).length := List.length_pos.mpr h
    have hid : identify_temperature_patterns recs cities = some
        { hottest_city := (city_names_for recs cities).getD
            (npArgmax (temp_values_for recs cities)) ""
          hottest_temp := (temp_values_for recs cities).getD
            (npArgmax (temp_values_for recs cities)) 0
          coldest_city := (city_names_for recs cities).getD
            (npArgmin (temp_values_for recs cities)) ""
          coldest_temp := (temp_values_for recs cities).getD
            (npArgmin (temp_values_for recs cities)) 0
          temperature_anomalies := (city_names_for recs cities).zip
            ((temp_values_for recs cities).map
              (fun t => t - npMean (temp_values_for recs cities)))
          zones_hot := (temp_values_for recs cities).countP
            (zoneHot (npMean (temp_values_for recs cities))
              (npVar (temp_values_for recs cities)))
          zones_moderate := (temp_values_for recs cities).countP
            (zoneModerate (npMean (temp_values_for recs cities))
              (npVar (temp_values_for recs cities)))
          zones_cold := (temp_values_for recs cities).countP
            (zoneCold (npMean (temp_values_for recs cities))
              (npVar (temp_values_for recs cities))) } := by
      simp only [identify_temperature_patterns]
      rw [if_pos hlen]
    have hlencn : (city_names_for recs cities).length =
        (temp_values_for recs cities).length :=
      filter_isSome_length (fun city => (city_temp_map recs city).bind id) cities
    refine ⟨_, hid, ?_, ?_⟩
    · -- hottest: first index attaining the maximum
      have hmem : npMax (temp_values_for recs cities) ∈ temp_values_for recs cities :=
        npMax_mem _ h
      have hex : ∃ x ∈ temp_values_for recs cities,
          (fun x => decide (x = npMax (temp_values_for recs cities))) x = true :=
        ⟨_, hmem, by simp⟩
      have hidx : npArgmax (temp_values_for recs cities) <
          (temp_values_for recs cities).length :=
        List.findIdx_lt_length_of_exists hex
      have hidxcn : npArgmax (temp_values_for recs cities) <
          (city_names_for recs cities).length := by omega
      refine ⟨npArgmax (temp_values_for recs cities), hidxcn, rfl, ?_, ?_, ?_, ?_⟩
      · exact filter_filterMap_aligned
          (fun city => (city_temp_map recs city).bind id) "" 0 cities
          (npArgmax (temp_values_for recs cities)) hidxcn
      · rw [getD_eq_get _ _ _ hidx]
        have := List.findIdx_getElem (w := hidx)
        simpa using this
      · intro y hy
        exact le_npMax _ y hy
      · intro j hj
        have hjlen : j < (temp_values_for recs cities).length := hj.trans hidx
        rw [getD_eq_get _ _ _ hjlen]
        simp only [npArgmax] at hj
        have := List.not_of_lt_findIdx hj
        simpa using this
    · -- coldest: first index attaining the minimum
      have hmem : npMin (temp_values_for recs cities) ∈ temp_values_for recs cities :=
        npMin_mem _ h
      have hex : ∃ x ∈ temp_values_for recs cities,
          (fun x => decide (x = npMin (temp_values_for recs cities))) x = true :=
        ⟨_, hmem, by simp⟩
      have hidx : npArgmin (temp_values_for recs cities) <
          (temp_values_for recs cities).length :=
        List.findIdx_lt_length_of_exists hex
      have hidxcn : npArgmin (temp_values_for recs cities) <
          (city_names_for recs cities).length := by omega
      refine ⟨npArgmin (temp_values_for recs cities), hidxcn, rfl, ?_, ?_, ?_, ?_⟩
      · exact filter_filterMap_aligned
          (fun city => (city_temp_map recs city).bind id) "" 0 cities
          (npArgmin (temp_values_for recs cities)) hidxcn
      · rw [getD_eq_get _ _ _ hidx]
        have := List.findIdx_getElem (w := hidx)
        simpa using this
      · intro y hy
        exact npMin_le _ y hy
      · intro j hj
        have hjlen : j < (temp_values_for recs cities).length := hj.trans hidx
        rw [getD_eq_get _ _ _ hjlen]
        simp only [npArgmin] at hj
        have := List.not_of_lt_findIdx hj
        simpa using this
  · constructor
    · simp [identify_temperature_patterns, temp_values_for, city_names_for,
        city_temp_map, npArgmax, npMax, npMean, c6_records, exRecord,
        List.findIdx, List.findIdx.go]
      norm_num
    · simp [identify_temperature_patterns, temp_values_for, city_names_for,
        city_temp_map, npArgmin, npMin, npMean, c6_records, exRecord,
        List.findIdx, List.findIdx.go]
      norm_num

/-- Witness for C6's universally quantified part at the example input. -/
theorem hottest_coldest_first_occurrence_witness :
    temp_values_for c6_records ["A", "B", "C"] ≠ [] ∧
    (∃ p, identify_temperature_patterns c6_records ["A", "B", "C"] = some p ∧
      (∃ i, i < (city_names_for c6_records ["A", "B", "C"]).length ∧
        p.hottest_city = (city_names_for c6_records ["A", "B", "C"]).getD i "" ∧
        (city_temp_map c6_records p.hottest_city).bind id =
          some ((temp_values_for c6_records ["A", "B", "C"]).getD i 0) ∧
        (temp_values_for c6_records ["A", "B", "C"]).getD i 0 =
          npMax (temp_values_for c6_records ["A", "B", "C"]) ∧
        (∀ y ∈ temp_values_for c6_records ["A", "B", "C"],
          y ≤ npMax (temp_values_for c6_records ["A", "B", "C"])) ∧
        (∀ j, j < i →
          (temp_values_for c6_records ["A", "B", "C"]).getD j 0 ≠
            npMax (temp_values_for c6_records ["A", "B", "C"]))) ∧
      (∃ i, i < (city_names_for c6_records ["A", "B", "C"]).length ∧
        p.coldest_city = (city_names_for c6_records ["A", "B", "C"]).getD i "" ∧
        (city_temp_map c6_records p.coldest_city).bind id =
          some ((temp_values_for c6_records ["A", "B", "C"]).getD i 0) ∧
        (temp_values_for c6_records ["A", "B", "C"]).getD i 0 =
          npMin (temp_values_for c6_records ["A", "B", "C"]) ∧
        (∀ y ∈ temp_values_for c6_records ["A", "B", "C"],
          npMin (temp_values_for c6_records ["A", "B", "C"]) ≤ y) ∧
        (∀ j, j < i →
          (temp_values_for c6_records ["A", "B", "C"]).getD j 0 ≠
            npMin (temp_values_for c6_records ["A", "B", "C"])))) :=
  ⟨by decide,
    hottest_coldest_first_occurrence.1 c6_records ["A", "B", "C"] (by decide)⟩

/-- The failing input for the correlation claim: record `"A"` has a
non-null temperature but a null humidity, so the two independently filtered
columns have lengths 3 and 2 while exactly 2 records are fully paired. -/
def c1_records : List WeatherRecord :=
  [exRecord "A" (some 1) none, exRecord "B" (some 2) (some 3),
    exRecord "C" (some 3) (some 4)]

/-- Claim C1 (refuted — code bug): `analyze_humidity_correlation` filters
temperatures and humidities INDEPENDENTLY, not pairwise.  On `c1_records`
the arrays have lengths 3 and 2, both pass the `> 1` guards, and
`np.corrcoef` is reached with mismatched 1-d arrays, which raises
`ValueError` (for every Pearson implementation `corrcoef`, since the value
is never computed) — even though the list contains exactly 2 fully paired
non-null `(temperature, humidity)` values, for which the claim demands a
coefficient and no error. -/
theorem humidity_correlation_raises_on_misaligned_nulls :
    (∀ corrcoef : List ℚ → List ℚ → ℚ,
      analyze_humidity_correlation corrcoef c1_records =
        .error "ValueError: all the input array dimensions must match exactly") ∧
    (statsTempValues c1_records).length = 3 ∧
    (corr_humidity_values c1_records).length = 2 ∧
    (paired_values c1_records).length = 2 := by
  exact ⟨fun corrcoef => rfl, rfl, rfl, rfl⟩

end Weather
